import Mathlib

/-!
Verification of the AI-Writer streaming generation pipeline.

Python strings are embedded as `List Char`; the functions below are shallow
embeddings of `src/ai_writer/core/ollama_client.py` (the `OllamaAPI` client,
its `clean_completion` post-processing and the streaming loop of
`generate_text_stream` / `OllamaWorker`) and of the fragment-insertion
handlers in `src/ai_writer/ui/main_window.py`.
-/

/-- Embedding of a Python `str` as a list of characters. -/
abbrev PyStr := List Char

/-- Convert a Lean string literal to the `PyStr` embedding. -/
def pys (s : String) : PyStr := s.toList

/-- The apostrophe character (used inside boilerplate phrases). -/
def apos : Char := Char.ofNat 39

/-- The double-quote character (used by the quote-stripping step). -/
def dq : Char := Char.ofNat 34

/-- Whitespace as recognised by Python `str.strip` / `str.isspace`
on ASCII text: space, tab, newline, carriage return, vertical tab, form feed. -/
def isSpaceChar (c : Char) : Bool :=
  c == ' ' || c == '\t' || c == '\n' || c == '\r' || c == Char.ofNat 11 || c == Char.ofNat 12

/-- Python `str.lstrip()`: drop leading whitespace. -/
def lstrip (s : PyStr) : PyStr := s.dropWhile isSpaceChar

/-- Python `str.rstrip()`: drop trailing whitespace. -/
def rstrip (s : PyStr) : PyStr := (lstrip s.reverse).reverse

/-- Python `str.strip()`: drop leading and trailing whitespace. -/
def strip (s : PyStr) : PyStr := rstrip (lstrip s)

/-- Python `str.lower()` (ASCII). -/
def lower (s : PyStr) : PyStr := s.map Char.toLower

/-- The fixed list of boilerplate lead-in phrases removed by
`OllamaAPI.clean_completion` (ollama_client.py lines 124-132), in source order. -/
def boilerplateLeadIns : List PyStr :=
  [pys "here" ++ [apos] ++ pys "s the continuation:",
   pys "continuation:",
   pys "continued:",
   pys "here is the completion:",
   pys "here" ++ [apos] ++ pys "s the completion:",
   pys "the continuation is:",
   pys "completion:"]

/-- Step 2 of `clean_completion` (lines 120-121): if the stripped completion
starts with the stripped original, remove that echo and re-strip. -/
def stripEcho (origS cs : PyStr) : PyStr :=
  if origS.isPrefixOf cs then strip (cs.drop origS.length) else cs

/-- One iteration of the boilerplate loop (lines 133-135): if the phrase
matches the lowercased start of the current text, drop it and re-strip. -/
def stripPhraseStep (cs p : PyStr) : PyStr :=
  if p.isPrefixOf (lower cs) then strip (cs.drop p.length) else cs

/-- Step 3 of `clean_completion` (lines 124-135): the `for prefix in prefixes`
loop, which checks every phrase in order with no early exit. -/
def stripBoilerplate (cs : PyStr) : PyStr :=
  boilerplateLeadIns.foldl stripPhraseStep cs

/-- Step 4 of `clean_completion` (lines 138-139): drop one leading double
quote when the original does not end with a double quote. -/
def stripLeadQuote (origS cs : PyStr) : PyStr :=
  if cs.head? == some dq && !(origS.getLast? == some dq) then strip (cs.drop 1) else cs

/-- `OllamaAPI.clean_completion` (ollama_client.py lines 113-141). -/
def clean_completion (original completion : PyStr) : PyStr :=
  stripLeadQuote (strip original) (stripBoilerplate (stripEcho (strip original) (strip completion)))

example : clean_completion (pys "Hello world") (pys "Hello world! How are you today?")
    = pys "! How are you today?" := by decide

example : clean_completion (pys "Start") (pys "Here is the completion: and this is more text.")
    = pys "and this is more text." := by decide

example : clean_completion (pys "He said") (dq :: pys "Hello there" ++ [dq])
    = pys "Hello there" ++ [dq] := by decide


/-- One parsed line of the newline-delimited streaming response:
`{ "response": string, "done": bool }` (missing fields default to `""`/`false`,
as with Python `dict.get`). -/
structure StreamLine where
  response : PyStr
  done : Bool
deriving DecidableEq, Repr

/-- The loop body of `OllamaAPI.generate_text_stream` (ollama_client.py lines
61-76) over the already-received lines.  A `none` entry is a blank physical
line, skipped by `if line:`.  The Boolean argument is `is_first_chunk`: while
it is true, the first non-empty `response` is passed through
`clean_completion` before being yielded; non-empty chunks are yielded, and the
loop breaks right after processing a line whose `done` field is true. -/
def processLines (prompt : PyStr) : Bool → List (Option StreamLine) → List PyStr
  | _, [] => []
  | isFirst, none :: rest => processLines prompt isFirst rest
  | isFirst, some l :: rest =>
    if isFirst = true ∧ l.response ≠ [] then
      (if clean_completion prompt l.response ≠ [] then [clean_completion prompt l.response] else []) ++
        (if l.done = true then [] else processLines prompt false rest)
    else
      (if l.response ≠ [] then [l.response] else []) ++
        (if l.done = true then [] else processLines prompt isFirst rest)

/-- `OllamaAPI.generate_text_stream` restricted to its pure part: the list of
chunks yielded for a given prompt and received line sequence. -/
def generate_text_stream (prompt : PyStr) (lines : List (Option StreamLine)) : List PyStr :=
  processLines prompt true lines

/-- Reference function: the fragments yielded verbatim (non-empty `response`
fields in order), stopping right after the first line with `done = true`. -/
def verbatimUpToDone : List (Option StreamLine) → List PyStr
  | [] => []
  | none :: rest => verbatimUpToDone rest
  | some l :: rest =>
    (if l.response ≠ [] then [l.response] else []) ++
      (if l.done = true then [] else verbatimUpToDone rest)

/-- Reference function: the non-empty `response` fields of a line list,
in order, with no `done` handling. -/
def nonemptyResponses : List (Option StreamLine) → List PyStr
  | [] => []
  | none :: rest => nonemptyResponses rest
  | some l :: rest => (if l.response ≠ [] then [l.response] else []) ++ nonemptyResponses rest

/-- `true` when no line of the list has `done = true`. -/
def noDoneLines : List (Option StreamLine) → Bool
  | [] => true
  | none :: rest => noDoneLines rest
  | some s :: rest => !s.done && noDoneLines rest

/-- `true` when every line of the list has an empty `response` and `done = false`. -/
def emptyNotDoneLines : List (Option StreamLine) → Bool
  | [] => true
  | none :: rest => emptyNotDoneLines rest
  | some s :: rest => (s.response.isEmpty && !s.done) && emptyNotDoneLines rest

theorem processLines_false_eq_verbatim (prompt : PyStr) :
    ∀ ls : List (Option StreamLine), processLines prompt false ls = verbatimUpToDone ls
  | [] => rfl
  | none :: rest => by
      simp [processLines, verbatimUpToDone, processLines_false_eq_verbatim prompt rest]
  | some l :: rest => by
      simp [processLines, verbatimUpToDone, processLines_false_eq_verbatim prompt rest]

theorem processLines_append_done (prompt : PyStr) (d : StreamLine) (hd : d.done = true)
    (post : List (Option StreamLine)) :
    ∀ (pre : List (Option StreamLine)) (first : Bool),
      processLines prompt first (pre ++ some d :: post)
        = processLines prompt first (pre ++ [some d])
  | [], first => by
      by_cases hb : first = true ∧ d.response ≠ [] <;> simp [processLines, hb, hd]
  | none :: pre, first => by
      simpa [processLines] using processLines_append_done prompt d hd post pre first
  | some l :: pre, first => by
      by_cases hb : first = true ∧ l.response ≠ [] <;>
        by_cases hdone : l.done = true <;>
          simp [processLines, hb, hdone, processLines_append_done prompt d hd post pre]

theorem verbatimUpToDone_append_last (d : StreamLine) :
    ∀ pre : List (Option StreamLine), noDoneLines pre = true →
      verbatimUpToDone (pre ++ [some d])
        = nonemptyResponses pre ++ (if d.response ≠ [] then [d.response] else [])
  | [], _ => by
      by_cases hdone : d.done = true <;> simp [verbatimUpToDone, nonemptyResponses, hdone]
  | none :: pre, h => by
      have h' : noDoneLines pre = true := by simpa [noDoneLines] using h
      simpa [verbatimUpToDone, nonemptyResponses] using verbatimUpToDone_append_last d pre h'
  | some l :: pre, h => by
      have h' : (!l.done) = true ∧ noDoneLines pre = true := by
        simpa [noDoneLines, Bool.and_eq_true] using h
      have hdone : l.done = false := by simpa using h'.1
      simp [verbatimUpToDone, nonemptyResponses, hdone,
        verbatimUpToDone_append_last d pre h'.2]

theorem processLines_skip_empty (prompt : PyStr) (tail : List (Option StreamLine)) :
    ∀ pre : List (Option StreamLine), emptyNotDoneLines pre = true →
      processLines prompt true (pre ++ tail) = processLines prompt true tail
  | [], _ => rfl
  | none :: pre, h => by
      have h' : emptyNotDoneLines pre = true := by simpa [emptyNotDoneLines] using h
      simpa [processLines] using processLines_skip_empty prompt tail pre h'
  | some l :: pre, h => by
      have h' := h
      simp only [emptyNotDoneLines, Bool.and_eq_true] at h'
      obtain ⟨⟨h1, h2⟩, h3⟩ := h'
      have hresp : l.response = [] := by simpa [List.isEmpty_iff] using h1
      have hdone : l.done = false := by simpa using h2
      simp [processLines, hresp, hdone, processLines_skip_empty prompt tail pre h3]

theorem nil_not_mem_processLines (prompt : PyStr) :
    ∀ (ls : List (Option StreamLine)) (first : Bool),
      ([] : PyStr) ∉ processLines prompt first ls
  | [], _ => by simp [processLines]
  | none :: rest, first => by
      simpa [processLines] using nil_not_mem_processLines prompt rest first
  | some l :: rest, first => by
      by_cases hb : first = true ∧ l.response ≠ []
      · by_cases hc : clean_completion prompt l.response = []
        · by_cases hdone : l.done = true <;>
            simp [processLines, hb, hc, hdone, nil_not_mem_processLines prompt rest false]
        · by_cases hdone : l.done = true <;>
            simp [processLines, hb, hc, hdone, Ne.symm hc,
              nil_not_mem_processLines prompt rest false]
      · by_cases hr : l.response = []
        · by_cases hdone : l.done = true <;>
            simp [processLines, hb, hr, hdone, nil_not_mem_processLines prompt rest first]
        · have hfirst : first = false := by
            cases first
            · rfl
            · exact absurd ⟨rfl, hr⟩ hb
          subst hfirst
          by_cases hdone : l.done = true <;>
            simp [processLines, hr, hdone, Ne.symm hr,
              nil_not_mem_processLines prompt rest false]

/-- Claim C1: in the streaming path of `generate_text_stream`, exactly the
first non-empty fragment of the stream (after any blank or empty-response
lines) is passed through `clean_completion` before being yielded, and every
subsequent fragment is yielded verbatim up to the terminating done line; for
the fragment sequence ["This is", " the", " continuation."] with done set on
the last line, the concatenation of all yielded fragments equals
"This is the continuation.". -/
theorem C1_first_fragment_cleaned_rest_verbatim
    (prompt : PyStr) (pre : List (Option StreamLine)) (f : StreamLine)
    (rest : List (Option StreamLine))
    (hpre : emptyNotDoneLines pre = true) (hne : f.response ≠ [])
    (hdone : f.done = false) :
    generate_text_stream prompt (pre ++ some f :: rest)
      = (if clean_completion prompt f.response ≠ []
         then [clean_completion prompt f.response] else []) ++ verbatimUpToDone rest
    ∧ (generate_text_stream (pys "Start")
        [some ⟨pys "This is", false⟩, some ⟨pys " the", false⟩,
         some ⟨pys " continuation.", true⟩]).flatten
       = pys "This is the continuation." := by
  constructor
  · rw [generate_text_stream, processLines_skip_empty prompt (some f :: rest) pre hpre]
    simp [processLines, hne, hdone, processLines_false_eq_verbatim]
  · decide

/-- Witness for C1: the concrete three-fragment stream of the claim. -/
theorem C1_witness :
    (pys "This is" ≠ []) ∧
    (generate_text_stream (pys "Start")
      [some ⟨pys "This is", false⟩, some ⟨pys " the", false⟩,
       some ⟨pys " continuation.", true⟩]).flatten = pys "This is the continuation." :=
  ⟨by decide,
   (C1_first_fragment_cleaned_rest_verbatim (pys "Start") [] ⟨pys "This is", false⟩
     [some ⟨pys " the", false⟩, some ⟨pys " continuation.", true⟩]
     (by decide) (by decide) (by decide)).2⟩

/-- Claim C5: the streaming loop consumes lines in order and terminates
exactly when the first line with `done = true` is observed: no line after the
done line contributes a fragment, and the done line's own response fragment,
if non-empty, is still yielded before termination. -/
theorem C5_done_line_terminates
    (prompt : PyStr) (first : Bool) (pre post : List (Option StreamLine)) (d : StreamLine)
    (hd : d.done = true) (hpre : noDoneLines pre = true) :
    processLines prompt first (pre ++ some d :: post)
      = processLines prompt first (pre ++ [some d])
    ∧ processLines prompt false (pre ++ [some d])
      = nonemptyResponses pre ++ (if d.response ≠ [] then [d.response] else []) :=
  ⟨processLines_append_done prompt d hd post pre first,
   by rw [processLines_false_eq_verbatim, verbatimUpToDone_append_last d pre hpre]⟩

/-- Witness for C5: a done line followed by a further line that contributes
nothing, while the done line's own fragment is yielded. -/
theorem C5_witness :
    processLines (pys "Start") false
        ([some ⟨pys " the", false⟩] ++ some ⟨pys " continuation.", true⟩ ::
          [some ⟨pys " after", false⟩])
      = [pys " the", pys " continuation."] := by
  have h := C5_done_line_terminates (pys "Start") false [some ⟨pys " the", false⟩]
      [some ⟨pys " after", false⟩] ⟨pys " continuation.", true⟩ rfl (by decide)
  exact h.1.trans (h.2.trans (by decide))

/-- Claim C10 (implicit invariant): every fragment yielded by the streaming
generator is non-empty; lines with an empty response field, and a first
fragment that cleaning reduces to the empty string, are silently skipped
(demonstrated concretely by the second conjunct, where the echo "Start" is
cleaned away entirely). -/
theorem C10_yielded_fragments_nonempty
    (prompt : PyStr) (lines : List (Option StreamLine)) (frag : PyStr)
    (h : frag ∈ generate_text_stream prompt lines) :
    frag ≠ []
    ∧ generate_text_stream (pys "Start")
        [some ⟨[], false⟩, some ⟨pys "Start", false⟩, some ⟨pys " more", true⟩]
      = [pys " more"] := by
  refine ⟨fun hnil => nil_not_mem_processLines prompt lines true (hnil ▸ h), by decide⟩

/-- Witness for C10: the fragment "This is" is yielded by a concrete stream
and is non-empty. -/
theorem C10_witness :
    (pys "This is") ∈ generate_text_stream (pys "Start")
        [some ⟨pys "This is", false⟩, some ⟨pys " the", false⟩,
         some ⟨pys " continuation.", true⟩]
    ∧ pys "This is" ≠ [] :=
  ⟨by decide,
   (C10_yielded_fragments_nonempty (pys "Start")
     [some ⟨pys "This is", false⟩, some ⟨pys " the", false⟩,
      some ⟨pys " continuation.", true⟩] (pys "This is") (by decide)).1⟩

/-- Spec-style reference for step 3 as amended: each candidate phrase is
checked in turn against the current start of the string, and checking
continues with the remaining phrases after a match (so a later-listed phrase
that becomes leading after an earlier strip is also removed). -/
def stripPhrasesInTurn : List PyStr → PyStr → PyStr
  | [], cs => cs
  | p :: ps, cs =>
    if p.isPrefixOf (lower cs) then stripPhrasesInTurn ps (strip (cs.drop p.length))
    else stripPhrasesInTurn ps cs

theorem foldl_stripPhraseStep_eq :
    ∀ (ps : List PyStr) (cs : PyStr), ps.foldl stripPhraseStep cs = stripPhrasesInTurn ps cs
  | [], _ => rfl
  | p :: ps, cs => by
      by_cases h : p.isPrefixOf (lower cs) = true <;>
        simp [stripPhraseStep, stripPhrasesInTurn, h, foldl_stripPhraseStep_eq ps]

/-- Claim C2 counterexample: the boilerplate loop of `clean_completion` does
not stop after the first matching phrase; on an input where stripping
"here's the continuation:" leaves "continued: more" at the front, the second
phrase "continued:" is stripped as well, so the output is "more" instead of
the "continued: more" the claim demands. -/
theorem C2_counterexample :
    clean_completion (pys "xyz")
        (pys "here" ++ [apos] ++ pys "s the continuation: continued: more") = pys "more"
    ∧ clean_completion (pys "xyz")
        (pys "here" ++ [apos] ++ pys "s the continuation: continued: more")
      ≠ pys "continued: more" := by
  exact ⟨by decide, by decide⟩

/-- Claim C2 (amended): in step 3 of `clean_completion` the phrases are
checked in turn against the current start of the string, but checking
continues with the remaining phrases after a match, so more than one phrase
can be removed: a later-listed phrase that becomes leading once an earlier
phrase is stripped is removed as well (concretely, both
"here's the continuation:" and "continued:" are stripped from one input). -/
theorem C2_amended_phrases_checked_in_turn :
    (∀ cs : PyStr, stripBoilerplate cs = stripPhrasesInTurn boilerplateLeadIns cs)
    ∧ clean_completion (pys "xyz")
        (pys "here" ++ [apos] ++ pys "s the continuation: continued: more") = pys "more" :=
  ⟨fun cs => foldl_stripPhraseStep_eq boilerplateLeadIns cs, by decide⟩

/-- Claim C3 counterexample: for original = "ab" and raw = "abab", the trimmed
raw starts with the trimmed original, yet `clean_completion` returns "ab",
which still has the original's trimmed content as a leading substring (echo
stripping removes only one copy). -/
theorem C3_counterexample :
    (strip (pys "ab")).isPrefixOf (strip (pys "abab")) = true
    ∧ clean_completion (pys "ab") (pys "abab") = pys "ab"
    ∧ (strip (pys "ab")).isPrefixOf (clean_completion (pys "ab") (pys "abab")) = true :=
  ⟨by decide, by decide, by decide⟩

/-- Claim C3 (amended): when the trimmed raw starts with the trimmed original,
echo stripping removes exactly one leading copy of it; provided the later
steps (boilerplate and leading-quote stripping) leave the trimmed remainder
unchanged and that remainder does not itself start with the trimmed original,
the result does not have the original's trimmed content as a leading
substring.  The unconditional claim fails for repetitive or empty originals
(see the counterexample). -/
theorem C3_amended_echo_stripped_once
    (original raw : PyStr)
    (hpre : (strip original).isPrefixOf (strip raw) = true)
    (hboiler : stripBoilerplate (strip ((strip raw).drop (strip original).length))
        = strip ((strip raw).drop (strip original).length))
    (hquote : stripLeadQuote (strip original) (strip ((strip raw).drop (strip original).length))
        = strip ((strip raw).drop (strip original).length))
    (hnp : (strip original).isPrefixOf (strip ((strip raw).drop (strip original).length)) = false) :
    clean_completion original raw = strip ((strip raw).drop (strip original).length)
    ∧ (strip original).isPrefixOf (clean_completion original raw) = false := by
  have he : stripEcho (strip original) (strip raw)
      = strip ((strip raw).drop (strip original).length) := by
    simp [stripEcho, hpre]
  have hmain : clean_completion original raw
      = strip ((strip raw).drop (strip original).length) := by
    rw [clean_completion, he, hboiler, hquote]
  exact ⟨hmain, hmain ▸ hnp⟩

/-- Witness for amended C3: the spec's own echo example, where the result
"! How are you today?" does not start with "Hello world". -/
theorem C3_witness :
    ((strip (pys "Hello world")).isPrefixOf (strip (pys "Hello world! How are you today?")) = true)
    ∧ (clean_completion (pys "Hello world") (pys "Hello world! How are you today?")
        = strip ((strip (pys "Hello world! How are you today?")).drop
            (strip (pys "Hello world")).length)
       ∧ (strip (pys "Hello world")).isPrefixOf
           (clean_completion (pys "Hello world") (pys "Hello world! How are you today?")) = false) :=
  ⟨by decide,
   C3_amended_echo_stripped_once (pys "Hello world") (pys "Hello world! How are you today?")
     (by decide) (by decide) (by decide) (by decide)⟩

/-- Claim C8: in step 4 of `clean_completion`, if after echo and boilerplate
stripping the text starts with a double quote and the trimmed original does
not end with a double quote, exactly that one leading quote is removed (the
rest, including any trailing quote, is kept and only re-trimmed). -/
theorem C8_leading_quote_stripped
    (original raw : PyStr)
    (hq : (stripBoilerplate (stripEcho (strip original) (strip raw))).head? = some dq)
    (hend : (strip original).getLast? ≠ some dq) :
    clean_completion original raw
      = strip ((stripBoilerplate (stripEcho (strip original) (strip raw))).drop 1) := by
  simp [clean_completion, stripLeadQuote, hq, hend]

/-- Witness for C8: cleanFragment("He said", '"Hello there"') keeps the
trailing quote and equals 'Hello there"'. -/
theorem C8_witness :
    ((stripBoilerplate (stripEcho (strip (pys "He said"))
        (strip (dq :: pys "Hello there" ++ [dq])))).head? = some dq)
    ∧ ((strip (pys "He said")).getLast? ≠ some dq)
    ∧ clean_completion (pys "He said") (dq :: pys "Hello there" ++ [dq])
        = pys "Hello there" ++ [dq] :=
  ⟨by decide, by decide,
   (C8_leading_quote_stripped (pys "He said") (dq :: pys "Hello there" ++ [dq])
     (by decide) (by decide)).trans (by decide)⟩

/-- State of the editor relevant to incremental insertion: the document text
and the `generation_cursor_pos` recorded when generation starts
(`MainWindow.start_generation`, main_window.py line 454). -/
structure EditorState where
  text : PyStr
  genCursorPos : Nat
deriving DecidableEq, Repr

/-- Python truthiness test `text and not text[-1].isspace()`. -/
def lastNonSpace (s : PyStr) : Bool :=
  match s.getLast? with
  | some c => !isSpaceChar c
  | none => false

/-- Python truthiness test `chunk and not chunk[0].isspace()`. -/
def headNonSpace (s : PyStr) : Bool :=
  match s.head? with
  | some c => !isSpaceChar c
  | none => false

/-- `MainWindow._on_text_chunk_received` (main_window.py lines 477-490): the
chunk is appended at the end of the document; if the document length still
equals `generation_cursor_pos` (i.e. nothing has been inserted yet), the
document is non-empty, its last character is non-whitespace and the chunk's
first character is non-whitespace, a single space is inserted first. -/
def on_text_chunk_received (st : EditorState) (chunk : PyStr) : EditorState :=
  let base :=
    if st.genCursorPos = st.text.length ∧ lastNonSpace st.text = true ∧ headNonSpace chunk = true
    then st.text ++ [' '] else st.text
  { st with text := base ++ chunk }

/-- Deliver a whole sequence of chunks to the handler, in order. -/
def applyChunks (st : EditorState) (chunks : List PyStr) : EditorState :=
  chunks.foldl on_text_chunk_received st

/-- The editor state right after `start_generation` records
`generation_cursor_pos = len(text)`. -/
def start_generation_state (docText : PyStr) : EditorState :=
  ⟨docText, docText.length⟩

theorem applyChunks_of_lt :
    ∀ (chunks : List PyStr) (st : EditorState), st.genCursorPos < st.text.length →
      (applyChunks st chunks).text = st.text ++ chunks.flatten
      ∧ (applyChunks st chunks).genCursorPos = st.genCursorPos
  | [], st, _ => by simp [applyChunks]
  | c :: cs, st, h => by
      have hne : st.genCursorPos ≠ st.text.length := Nat.ne_of_lt h
      have hst : on_text_chunk_received st c = { st with text := st.text ++ c } := by
        simp [on_text_chunk_received, hne]
      have hlt : ({ st with text := st.text ++ c } : EditorState).genCursorPos
          < ({ st with text := st.text ++ c } : EditorState).text.length := by
        simp only [List.length_append]
        omega
      have ih := applyChunks_of_lt cs { st with text := st.text ++ c } hlt
      have hstep : applyChunks st (c :: cs) = applyChunks { st with text := st.text ++ c } cs := by
        rw [show applyChunks st (c :: cs) = applyChunks (on_text_chunk_received st c) cs from rfl,
          hst]
      rw [hstep]
      exact ⟨ih.1.trans (by simp), ih.2⟩

/-- Claim C4: on the very first fragment of a session (document length still
equal to the recorded insertion point), a single space is inserted if and
only if the character before the insertion point is non-whitespace and the
fragment's first character is non-whitespace; no space is ever inserted
between subsequent fragments, which are appended verbatim. -/
theorem C4_first_fragment_spacing
    (doc c : PyStr) (cs : List PyStr) (hc : c ≠ []) :
    (applyChunks (start_generation_state doc) (c :: cs)).text
      = doc ++ (if lastNonSpace doc = true ∧ headNonSpace c = true then [' '] else [])
          ++ c ++ cs.flatten := by
  have hcpos : 0 < c.length := List.length_pos.mpr hc
  by_cases hcond : lastNonSpace doc = true ∧ headNonSpace c = true
  · have hfirst : on_text_chunk_received (start_generation_state doc) c
        = { text := (doc ++ [' ']) ++ c, genCursorPos := doc.length } := by
      simp [on_text_chunk_received, start_generation_state, hcond]
    have hlt : ({ text := (doc ++ [' ']) ++ c, genCursorPos := doc.length } : EditorState).genCursorPos
        < ({ text := (doc ++ [' ']) ++ c, genCursorPos := doc.length } : EditorState).text.length := by
      simp only [List.length_append]
      omega
    have ih := applyChunks_of_lt cs { text := (doc ++ [' ']) ++ c, genCursorPos := doc.length } hlt
    have hstep : applyChunks (start_generation_state doc) (c :: cs)
        = applyChunks { text := (doc ++ [' ']) ++ c, genCursorPos := doc.length } cs := by
      rw [show applyChunks (start_generation_state doc) (c :: cs)
          = applyChunks (on_text_chunk_received (start_generation_state doc) c) cs from rfl, hfirst]
    rw [hstep, ih.1]
    simp [hcond]
  · have hfirst : on_text_chunk_received (start_generation_state doc) c
        = { text := doc ++ c, genCursorPos := doc.length } := by
      simp [on_text_chunk_received, start_generation_state, hcond]
    have hlt : ({ text := doc ++ c, genCursorPos := doc.length } : EditorState).genCursorPos
        < ({ text := doc ++ c, genCursorPos := doc.length } : EditorState).text.length := by
      simp only [List.length_append]
      omega
    have ih := applyChunks_of_lt cs { text := doc ++ c, genCursorPos := doc.length } hlt
    have hstep : applyChunks (start_generation_state doc) (c :: cs)
        = applyChunks { text := doc ++ c, genCursorPos := doc.length } cs := by
      rw [show applyChunks (start_generation_state doc) (c :: cs)
          = applyChunks (on_text_chunk_received (start_generation_state doc) c) cs from rfl, hfirst]
    rw [hstep, ih.1]
    simp [hcond]

/-- Witness for C4: document "Hello" plus fragment "world" yields
"Hello world" (space inserted); document "Hello " (ending in whitespace)
plus fragment "world" also yields "Hello world" with no extra space. -/
theorem C4_witness :
    (pys "world" ≠ []) ∧
    (applyChunks (start_generation_state (pys "Hello")) [pys "world"]).text = pys "Hello world"
    ∧ (applyChunks (start_generation_state (pys "Hello ")) [pys "world"]).text = pys "Hello world" :=
  ⟨by decide,
   (C4_first_fragment_spacing (pys "Hello") (pys "world") [] (by decide)).trans (by decide),
   (C4_first_fragment_spacing (pys "Hello ") (pys "world") [] (by decide)).trans (by decide)⟩

/-- One entry of the `/api/tags` response's `models` array; only the `name`
field is read by `scan_models`. -/
structure ModelEntry where
  name : PyStr
deriving DecidableEq, Repr

/-- Outcome of the HTTP GET issued by `requests.get` in `scan_models`:
a refused connection, a timeout, or a response with a status code and a
parsed `models` array. -/
inductive HttpGetOutcome where
  | connectionRefused
  | timedOut
  | response (status : Nat) (models : List ModelEntry)
deriving DecidableEq

/-- The error kinds surfaced by the client: `requests` connection errors,
timeouts, and the `HTTPError(status)` raised by `response.raise_for_status()`
(the spec's `ServerError(statusCode)`). -/
inductive RequestError where
  | connectionError
  | timeoutError
  | serverError (status : Nat)
deriving DecidableEq, Repr

/-- `OllamaAPI.scan_models` (ollama_client.py lines 23-28):
`raise_for_status` raises for any 4xx/5xx status; otherwise the `name` field
of each entry of `models` is collected in order. -/
def scan_models : HttpGetOutcome → Except RequestError (List PyStr)
  | HttpGetOutcome.connectionRefused => Except.error RequestError.connectionError
  | HttpGetOutcome.timedOut => Except.error RequestError.timeoutError
  | HttpGetOutcome.response status models =>
    if 400 ≤ status ∧ status < 600 then Except.error (RequestError.serverError status)
    else Except.ok (models.map ModelEntry.name)

/-- Claim C6: `scan_models` returns the model names in the order the server
reported them, without re-sorting; the response
`{"models":[{"name":"a"},{"name":"b"}]}` yields exactly `["a","b"]`; a 500
status fails with the server error carrying 500; a refused connection fails
with the connection error. -/
theorem C6_list_models_order_and_errors :
    (∀ entries : List ModelEntry,
        scan_models (HttpGetOutcome.response 200 entries)
          = Except.ok (entries.map ModelEntry.name))
    ∧ scan_models (HttpGetOutcome.response 200 [⟨pys "a"⟩, ⟨pys "b"⟩])
        = Except.ok [pys "a", pys "b"]
    ∧ scan_models (HttpGetOutcome.response 500 [])
        = Except.error (RequestError.serverError 500)
    ∧ scan_models HttpGetOutcome.connectionRefused
        = Except.error RequestError.connectionError :=
  ⟨fun _ => rfl, rfl, rfl, rfl⟩

/-- The status report produced by the generation-finished handlers of the UI. -/
inductive UiReport where
  | generationComplete
  | noCompletionGenerated
  | completionAdded
  | errorShown
deriving DecidableEq, Repr

/-- `MainWindow._on_generation_finished` (main_window.py lines 542-549, the
streaming revision): shows the "Generation complete" status message and
resets the generate button regardless of the completion text; it never
raises an error dialog and never checks for an empty completion. -/
def on_generation_finished (_completion : PyStr) : UiReport :=
  UiReport.generationComplete

/-- `MainWindow.on_generation_finished` of the earlier non-streaming revision
(unnamed/part_000 lines 483-498): a blank completion reports the
informational "No completion generated" message and inserts nothing;
otherwise the completion is inserted and reported as added. -/
def on_generation_finished_v0 (completion : PyStr) : UiReport :=
  if strip completion = [] then UiReport.noCompletionGenerated else UiReport.completionAdded

/-- The two terminal events an `OllamaWorker` can emit. -/
inductive WorkerTerminal where
  | finishedEvt (text : PyStr)
  | errorEvt
deriving DecidableEq, Repr

/-- The streaming branch of `OllamaWorker._generate_text` (ollama_client.py
lines 220-230): every yielded chunk is emitted via `text_chunk_received`,
then `finished` is emitted with the accumulated concatenation. -/
def worker_generate_stream (prompt : PyStr) (lines : List (Option StreamLine)) :
    List PyStr × WorkerTerminal :=
  (generate_text_stream prompt lines,
   WorkerTerminal.finishedEvt (generate_text_stream prompt lines).flatten)

/-- Claim C7 counterexample: in the streaming revision, a session completing
with zero inserted characters ends in the normal `finished` event and the
handler reports "Generation complete", not the claimed informational
"no completion generated" message. -/
theorem C7_counterexample :
    worker_generate_stream (pys "Start") [some ⟨[], true⟩]
      = ([], WorkerTerminal.finishedEvt [])
    ∧ on_generation_finished [] = UiReport.generationComplete
    ∧ on_generation_finished [] ≠ UiReport.noCompletionGenerated :=
  ⟨by decide, rfl, by decide⟩

/-- Claim C7 (amended): a streaming session that completes with zero inserted
characters is not treated as an error — the worker emits the normal
`finished` event with the empty accumulation and the streaming handler never
raises an error — but the informational "No completion generated" report
exists only in the earlier non-streaming revision's handler, not in the
streaming path. -/
theorem C7_amended_empty_stream_not_error
    (prompt completion : PyStr) (lines : List (Option StreamLine))
    (hempty : generate_text_stream prompt lines = []) :
    (worker_generate_stream prompt lines).2 = WorkerTerminal.finishedEvt []
    ∧ on_generation_finished completion ≠ UiReport.errorShown
    ∧ (strip completion = [] →
        on_generation_finished_v0 completion = UiReport.noCompletionGenerated) := by
  refine ⟨?_, by simp [on_generation_finished], fun h => by simp [on_generation_finished_v0, h]⟩
  simp [worker_generate_stream, hempty]

/-- Witness for amended C7: the one-line done stream with empty response. -/
theorem C7_witness :
    (generate_text_stream (pys "Start") [some ⟨[], true⟩] = [])
    ∧ ((worker_generate_stream (pys "Start") [some ⟨[], true⟩]).2
          = WorkerTerminal.finishedEvt []
       ∧ on_generation_finished ([] : PyStr) ≠ UiReport.errorShown
       ∧ (strip ([] : PyStr) = [] →
            on_generation_finished_v0 ([] : PyStr) = UiReport.noCompletionGenerated)) :=
  ⟨by decide,
   C7_amended_empty_stream_not_error (pys "Start") [] [some ⟨[], true⟩] (by decide)⟩
